import Mathlib

/-!
PulseEffects, `src/plugin_base.cpp`: the splice point.

A shallow embedding of `plugin_base.cpp`.  The C++ object `PluginBase` together with the part
of the GStreamer graph it owns (the shell `plugin`, the two endpoints `identity_in` and
`identity_out`, the unit `bin`) and the content of its `GSettings` store is one record; every
function of the file is a function on that record.  Deferred work (pad probes, events
travelling through the unit) is explicit state, and the moments at which GStreamer runs it are
explicit actions, so that a run of the program is a list of actions.

GStreamer and GLib are libraries outside the repository.  Their calls are modelled by the
small functions of the second section, each named after the call it stands for:

* a pad has at most one peer, so a link is refused when one of the two pads is taken;
* the unit `bin` has one `sink` and one `src` pad, which the owner of the unit gives it
  before the first transition (a unit has a single input and a single output);
* `gst_bin_get_by_name (plugin, name + "_bin")` finds the unit exactly when it is a child of
  the shell;
* `gst_element_get_state` with a zero timeout reports the current state of the element;
* setting an element to `GST_STATE_NULL` flushes what is in flight inside it, and a child
  follows the state of its parent;
* an event sent to a pad of an element whose pads are not active is refused;
* an idle probe whose callback returns `GST_PAD_PROBE_REMOVE` is removed;
* a signal runs every handler connected to it, once for each connection;
* after a probe callback returns `GST_PAD_PROBE_DROP` no further probe sees the item.
-/

namespace PulseEffects

/-! ## Data model -/

/-- The `GstState` enumeration. -/
inductive GstState where
  | VOID_PENDING
  | NULL
  | READY
  | PAUSED
  | PLAYING
  deriving DecidableEq

/-- The downstream members of the `GstEventType` enumeration. -/
inductive GstEventType where
  | FLUSH_START
  | FLUSH_STOP
  | STREAM_START
  | CAPS
  | SEGMENT
  | TAG
  | EOS
  | GAP
  | CUSTOM_DOWNSTREAM
  | CUSTOM_DOWNSTREAM_OOB
  | CUSTOM_DOWNSTREAM_STICKY
  | CUSTOM_BOTH
  deriving DecidableEq

/-- An event: its type and the name of the structure it carries. -/
structure GstEvent where
  event_type : GstEventType
  structure_name : String
  deriving DecidableEq

/-- The `GstPadProbeReturn` enumeration. -/
inductive GstPadProbeReturn where
  | DROP
  | OK
  | REMOVE
  | PASS
  | HANDLED
  deriving DecidableEq

/-- A probe installed on a pad, named by the callback it carries:
the idle lambda of `enable()`, the idle lambda of `disable()`, the block probe with
`on_pad_blocked`, and the blocking downstream-event probe with `event_probe_cb`. -/
inductive PadProbe where
  | idle_on_enable
  | idle_on_disable
  | block_on_pad_blocked
  | event_probe_cb
  deriving DecidableEq

/-- The three elements the file links and unlinks. -/
inductive Element where
  | identity_in
  | bin
  | identity_out
  deriving DecidableEq

/-- The two keys of the settings schema the file uses: `"installed"` and `"state"`. -/
inductive Key where
  | installed
  | state
  deriving DecidableEq

/-- The settings store behind the `GSettings*` handle. -/
structure GSettings where
  installed : Bool
  state : Bool
  deriving DecidableEq

/-- The object `PluginBase` and the graph it owns.

* `plugin_is_installed`, `settings`: the members of that name;
* `state_signal_connections`: the number of times `on_state_changed` has been connected to
  `changed::state` (every `g_signal_connect` adds a connection);
* `bin_in_plugin`: the unit `bin` is a child of the shell `plugin`;
* `link_in_out`, `link_in_bin`, `link_bin_out`: the pad links
  `identity_in.src → identity_out.sink`, `identity_in.src → bin.sink`,
  `bin.src → identity_out.sink`;
* `plugin_state`, `bin_state`: the `GstState` of the shell and of the unit;
* `in_src_probes`, `out_src_probes`: the probes installed on the `src` pad of `identity_in`
  and of `identity_out`, oldest first;
* `bin_events`: the events that entered the unit and have not left it yet, oldest first. -/
structure PluginBase where
  plugin_is_installed : Bool
  settings : GSettings
  state_signal_connections : Nat
  bin_in_plugin : Bool
  link_in_out : Bool
  link_in_bin : Bool
  link_bin_out : Bool
  plugin_state : GstState
  bin_state : GstState
  in_src_probes : List PadProbe
  out_src_probes : List PadProbe
  bin_events : List GstEvent
  deriving DecidableEq

/-! ## The GLib and GStreamer calls -/

/-- Model of `g_settings_get_boolean (settings, key)`. -/
def g_settings_get_boolean (st : GSettings) : Key → Bool
  | .installed => st.installed
  | .state => st.state

/-- Model of `g_settings_set_boolean (settings, key, value)`. -/
def g_settings_set_boolean (st : GSettings) : Key → Bool → GSettings
  | .installed, v => { st with installed := v }
  | .state, v => { st with state := v }

/-- The `src` pad of `identity_in` has no peer. -/
def in_src_free (s : PluginBase) : Bool := !s.link_in_out && !s.link_in_bin

/-- The `sink` pad of `identity_out` has no peer. -/
def out_sink_free (s : PluginBase) : Bool := !s.link_in_out && !s.link_bin_out

/-- Model of `gst_element_link (a, b)`: links `a.src → b.sink` when both pads are free and
reports whether it did.  The unit is taken to have its `sink` and `src` pads. -/
def gst_element_link : Element → Element → PluginBase → Bool × PluginBase
  | .identity_in, .identity_out, s =>
      if in_src_free s && out_sink_free s then (true, { s with link_in_out := true })
      else (false, s)
  | .identity_in, .bin, s =>
      if in_src_free s && !s.link_in_bin then (true, { s with link_in_bin := true })
      else (false, s)
  | .bin, .identity_out, s =>
      if !s.link_bin_out && out_sink_free s then (true, { s with link_bin_out := true })
      else (false, s)
  | _, _, s => (false, s)

/-- Model of `gst_element_unlink (a, b)`. -/
def gst_element_unlink : Element → Element → PluginBase → PluginBase
  | .identity_in, .identity_out, s => { s with link_in_out := false }
  | .identity_in, .bin, s => { s with link_in_bin := false }
  | .bin, .identity_out, s => { s with link_bin_out := false }
  | _, _, s => s

/-- Model of `gst_element_link_many (a, b, c, nullptr)`: stops at the first link that fails. -/
def gst_element_link_many (a b c : Element) (s : PluginBase) : Bool × PluginBase :=
  match gst_element_link a b s with
  | (true, s1) => gst_element_link b c s1
  | (false, s1) => (false, s1)

/-- Model of `gst_element_unlink_many (a, b, c, nullptr)`. -/
def gst_element_unlink_many (a b c : Element) (s : PluginBase) : PluginBase :=
  gst_element_unlink b c (gst_element_unlink a b s)

/-- Model of `gst_bin_get_by_name (GST_BIN (plugin), name + "_bin")`: non-null exactly when
the unit is a child of the shell. -/
def gst_bin_get_by_name (s : PluginBase) : Bool := s.bin_in_plugin

/-- Model of `gst_bin_add (GST_BIN (plugin), bin)`: refused when the unit already has a
parent. -/
def gst_bin_add (s : PluginBase) : Bool × PluginBase :=
  if s.bin_in_plugin then (false, s) else (true, { s with bin_in_plugin := true })

/-- Model of `gst_bin_remove (GST_BIN (plugin), bin)`. -/
def gst_bin_remove (s : PluginBase) : PluginBase := { s with bin_in_plugin := false }

/-- Model of `gst_element_set_state (bin, st)`; reaching `NULL` flushes the unit. -/
def gst_element_set_state (st : GstState) (s : PluginBase) : PluginBase :=
  { s with bin_state := st, bin_events := if st = .NULL then [] else s.bin_events }

/-- Model of `gst_element_sync_state_with_parent (bin)`. -/
def gst_element_sync_state_with_parent (s : PluginBase) : PluginBase :=
  if s.bin_in_plugin then { s with bin_state := s.plugin_state } else s

/-- Model of `gst_element_get_state (bin, &state, &pending, 0)`: the value left in `state`. -/
def gst_element_get_state (s : PluginBase) : GstState := s.bin_state

/-- Model of `gst_pad_send_event (sinkpad, event)` on the `sink` pad of the unit: the event
enters the unit when its pads are active and is refused otherwise. -/
def gst_pad_send_event (e : GstEvent) (s : PluginBase) : PluginBase :=
  if s.bin_state = .PAUSED ∨ s.bin_state = .PLAYING then
    { s with bin_events := s.bin_events ++ [e] }
  else s

/-! ## The functions of `plugin_base.cpp` -/

/-- The member `PluginBase::enable()`: an idle probe on the `src` pad of `identity_in`. -/
def PluginBase.enable (s : PluginBase) : PluginBase :=
  { s with in_src_probes := s.in_src_probes ++ [.idle_on_enable] }

/-- The member `PluginBase::disable()`: an idle probe when the unit is not playing, a block
probe with `on_pad_blocked` when it is. -/
def PluginBase.disable (s : PluginBase) : PluginBase :=
  let state := gst_element_get_state s
  if state ≠ .PLAYING then
    { s with in_src_probes := s.in_src_probes ++ [.idle_on_disable] }
  else
    { s with in_src_probes := s.in_src_probes ++ [.block_on_pad_blocked] }

/-- The function `on_state_changed (settings, key, l)`. -/
def on_state_changed (key : Key) (s : PluginBase) : PluginBase :=
  if s.plugin_is_installed then
    let enable := g_settings_get_boolean s.settings key
    if enable = true then s.enable else s.disable
  else
    { s with settings := g_settings_set_boolean s.settings .installed false }

/-- The function `on_enable (user_data)`. -/
def on_enable (s : PluginBase) : PluginBase :=
  let b := gst_bin_get_by_name s
  if b = false then
    let s1 := gst_element_set_state .NULL s
    let s2 := gst_element_unlink .identity_in .identity_out s1
    let s3 := (gst_bin_add s2).2
    let s4 := (gst_element_link_many .identity_in .bin .identity_out s3).2
    gst_element_sync_state_with_parent s4
  else s

/-- The function `on_disable (user_data)`. -/
def on_disable (s : PluginBase) : PluginBase :=
  let b := gst_bin_get_by_name s
  if b ≠ false then
    let s1 := gst_element_set_state .NULL s
    let s2 := gst_element_unlink_many .identity_in .bin .identity_out s1
    let s3 := gst_bin_remove s2
    (gst_element_link .identity_in .identity_out s3).2
  else s

/-- The function `event_probe_cb (pad, info, user_data)` for the probe at position `i` of the
`src` pad of `identity_out`, called with the event `e`. -/
def event_probe_cb (e : GstEvent) (i : Nat) (s : PluginBase) : GstPadProbeReturn × PluginBase :=
  if e.event_type ≠ .CUSTOM_DOWNSTREAM then (.PASS, s)
  else
    let s1 := { s with out_src_probes := s.out_src_probes.eraseIdx i }
    let s2 := on_disable s1
    (.DROP, s2)

/-- The event `on_pad_blocked` creates:
`gst_event_new_custom (GST_EVENT_CUSTOM_DOWNSTREAM, gst_structure_new_empty ("remove_plugin"))`. -/
def remove_plugin_event : GstEvent :=
  { event_type := .CUSTOM_DOWNSTREAM, structure_name := "remove_plugin" }

/-- The function `on_pad_blocked (pad, info, user_data)` for the probe at position `i` of the
`src` pad of `identity_in`. -/
def on_pad_blocked (i : Nat) (s : PluginBase) : GstPadProbeReturn × PluginBase :=
  let s1 := { s with in_src_probes := s.in_src_probes.eraseIdx i }
  let s2 := { s1 with out_src_probes := s1.out_src_probes ++ [.event_probe_cb] }
  let s3 := gst_pad_send_event remove_plugin_event s2
  (.OK, s3)

/-- The constructor `PluginBase::PluginBase`.  The declaration of the member
`plugin_is_installed` is in `plugin_base.hpp`; the value it has when the constructor body runs
is the parameter `plugin_is_installed`.  `store` is the content of the settings store. -/
def PluginBase.new (plugin_is_installed : Bool) (store : GSettings) : PluginBase :=
  let s0 : PluginBase :=
    { plugin_is_installed := plugin_is_installed
      settings := store
      state_signal_connections := 0
      bin_in_plugin := false
      link_in_out := false
      link_in_bin := false
      link_bin_out := false
      plugin_state := .NULL
      bin_state := .NULL
      in_src_probes := []
      out_src_probes := []
      bin_events := [] }
  let s1 := (gst_element_link .identity_in .identity_out s0).2
  on_state_changed .state s1

/-- What the destructor released. -/
structure Released where
  bin_unref : Bool
  settings_unref : Bool
  deriving DecidableEq

/-- The destructor `PluginBase::~PluginBase`. -/
def PluginBase.destroy (s : PluginBase) : Released :=
  let enable := g_settings_get_boolean s.settings .state
  { bin_unref := (enable = false), settings_unref := true }

/-- The member `PluginBase::is_installed (e)`; `e` is `none` for a null handle. -/
def PluginBase.is_installed (e : Option Unit) (s : PluginBase) : Bool × PluginBase :=
  if e ≠ none then
    (true, { s with plugin_is_installed := true
                    settings := g_settings_set_boolean s.settings .installed true
                    state_signal_connections := s.state_signal_connections + 1 })
  else
    (false, { s with plugin_is_installed := false
                     settings := g_settings_set_boolean s.settings .installed false })

/-! ## When GStreamer runs the deferred work -/

/-- The probe at position `i` of the `src` pad of `identity_in` fires.  The two idle lambdas
run their function and return `GST_PAD_PROBE_REMOVE`; the block probe runs `on_pad_blocked`. -/
def fire (i : Nat) (s : PluginBase) : PluginBase :=
  match s.in_src_probes[i]? with
  | some .idle_on_enable =>
      let s1 := on_enable s
      { s1 with in_src_probes := s1.in_src_probes.eraseIdx i }
  | some .idle_on_disable =>
      let s1 := on_disable s
      { s1 with in_src_probes := s1.in_src_probes.eraseIdx i }
  | some .block_on_pad_blocked => (on_pad_blocked i s).2
  | _ => s

/-- The probes of the `src` pad of `identity_out` are called with the downstream event `e`,
oldest first, from position `i` on; `n` bounds the number of probes still to call.  A probe
that does not return `PASS` ends the round. -/
def run_event_probes (e : GstEvent) : Nat → Nat → PluginBase → PluginBase
  | 0, _, s => s
  | n + 1, i, s =>
      if i < s.out_src_probes.length then
        match event_probe_cb e i s with
        | (.PASS, s1) => run_event_probes e n (i + 1) s1
        | (_, s1) => s1
      else s

/-- The downstream event `e` reaches the `src` pad of `identity_out`. -/
def event_at_out_src (e : GstEvent) (s : PluginBase) : PluginBase :=
  run_event_probes e s.out_src_probes.length 0 s

/-- The oldest event inside the unit leaves it: it reaches the `src` pad of `identity_out`
when the unit is linked to `identity_out` and is lost otherwise. -/
def deliver (s : PluginBase) : PluginBase :=
  match s.bin_events with
  | [] => s
  | e :: es =>
      let s1 := { s with bin_events := es }
      if s1.link_bin_out then event_at_out_src e s1 else s1

/-- An event of the stream reaches the `src` pad of `identity_out` through whichever path is
wired between the endpoints. -/
def stream_event (e : GstEvent) (s : PluginBase) : PluginBase :=
  if s.link_in_out || (s.link_in_bin && s.link_bin_out) then event_at_out_src e s else s

/-- The parent pipeline moves the shell to the state `st`; a child follows its parent. -/
def set_plugin_state (st : GstState) (s : PluginBase) : PluginBase :=
  let s1 := { s with plugin_state := st }
  if s1.bin_in_plugin then gst_element_set_state st s1 else s1

/-- The store emits `changed::state`: `on_state_changed (settings, "state", l)` runs once for
each of the `n` connections. -/
def emit_changed_state : Nat → PluginBase → PluginBase
  | 0, s => s
  | n + 1, s => emit_changed_state n (on_state_changed .state s)

/-- The settings store changes `"state"` to `v` and emits `changed::state`. -/
def settings_changed (v : Bool) (s : PluginBase) : PluginBase :=
  let s1 := { s with settings := g_settings_set_boolean s.settings .state v }
  emit_changed_state s1.state_signal_connections s1

/-- What can happen to a splice point. -/
inductive Action where
  | call_enable
  | call_disable
  | settings_changed (v : Bool)
  | set_plugin_state (st : GstState)
  | fire (i : Nat)
  | deliver
  | stream_event (e : GstEvent)
  deriving DecidableEq

/-- One action. -/
def step (s : PluginBase) : Action → PluginBase
  | .call_enable => s.enable
  | .call_disable => s.disable
  | .settings_changed v => settings_changed v s
  | .set_plugin_state st => set_plugin_state st s
  | .fire i => fire i s
  | .deliver => deliver s
  | .stream_event e => stream_event e s

/-- A sequence of actions. -/
def run (s : PluginBase) (acts : List Action) : PluginBase := acts.foldl step s

/-- The oldest probe of the `src` pad of `identity_in` fires, `n` times. -/
def fire_all : Nat → PluginBase → PluginBase
  | 0, s => s
  | n + 1, s => fire_all n (fire 0 s)

/-- The oldest event inside the unit leaves it, `n` times. -/
def deliver_all : Nat → PluginBase → PluginBase
  | 0, s => s
  | n + 1, s => deliver_all n (deliver s)

/-- Settlement: every probe installed on the `src` pad of `identity_in` fires, oldest first,
and then every event inside the unit leaves it. -/
def settle (s : PluginBase) : PluginBase :=
  let s1 := fire_all s.in_src_probes.length s
  deliver_all s1.bin_events.length s1

/-- An action followed by settlement. -/
def settled_step (s : PluginBase) (a : Action) : PluginBase := settle (step s a)

/-- A sequence of actions, each settled before the next. -/
def settled_run (s : PluginBase) (acts : List Action) : PluginBase := acts.foldl settled_step s

/-- The direct link `identity_in → identity_out` is wired. -/
def bypass_wired (s : PluginBase) : Prop := s.link_in_out = true

/-- The unit is attached to the shell and linked `identity_in → bin → identity_out`. -/
def unit_in_path (s : PluginBase) : Prop :=
  s.bin_in_plugin = true ∧ s.link_in_bin = true ∧ s.link_bin_out = true

/-- Exactly one of the two wirings. -/
def exactly_one_wired (s : PluginBase) : Prop :=
  (bypass_wired s ∧ ¬ unit_in_path s) ∨ (¬ bypass_wired s ∧ unit_in_path s)

instance (s : PluginBase) : Decidable (bypass_wired s) := by unfold bypass_wired; infer_instance

instance (s : PluginBase) : Decidable (unit_in_path s) := by unfold unit_in_path; infer_instance

instance (s : PluginBase) : Decidable (exactly_one_wired s) := by
  unfold exactly_one_wired; infer_instance

/-! ## Invariants and the states used as examples -/

/-- The wiring is one of the two consistent ones: the bypass with the unit detached, stopped
and linked to nothing, or the unit attached and linked between the endpoints. -/
def Wired (s : PluginBase) : Prop :=
  (s.link_in_out = true ∧ s.bin_in_plugin = false ∧ s.link_in_bin = false ∧
      s.link_bin_out = false ∧ s.bin_state = .NULL) ∨
  (s.link_in_out = false ∧ s.bin_in_plugin = true ∧ s.link_in_bin = true ∧
      s.link_bin_out = true)

/-- Only idle probes. -/
def idle_only (ps : List PadProbe) : Prop :=
  ∀ p ∈ ps, p = .idle_on_enable ∨ p = .idle_on_disable

/-- Nothing is pending and the wiring is consistent. -/
def Settled (s : PluginBase) : Prop :=
  s.in_src_probes = [] ∧ s.out_src_probes = [] ∧ s.bin_events = [] ∧ Wired s

/-- Only idle probes are pending, and none unless the unit is stopped; the handler is connected
at most once. -/
def Calm (s : PluginBase) : Prop :=
  idle_only s.in_src_probes ∧ s.out_src_probes = [] ∧ s.bin_events = [] ∧ Wired s ∧
    (s.in_src_probes = [] ∨ s.bin_state = .NULL) ∧ s.state_signal_connections ≤ 1

/-- The wiring between the endpoints: the three links and whether the unit is attached. -/
def wiring (s : PluginBase) : Bool × Bool × Bool × Bool :=
  (s.link_in_out, s.bin_in_plugin, s.link_in_bin, s.link_bin_out)

/-- The wiring together with the play state of the unit. -/
def observable (s : PluginBase) : (Bool × Bool × Bool × Bool) × GstState :=
  (wiring s, s.bin_state)

instance (s : PluginBase) : Decidable (Wired s) := by unfold Wired; infer_instance

instance (s : PluginBase) : Decidable (Settled s) := by unfold Settled; infer_instance

/-- The capability is missing, nothing is pending and the bypass is wired. -/
def Bypassed (s : PluginBase) : Prop :=
  s.plugin_is_installed = false ∧ Settled s ∧ s.link_in_out = true ∧ s.bin_in_plugin = false

/-- The action `a`, taken in the state `s`, neither changes the play state of the shell nor
brings an event of type `CUSTOM_DOWNSTREAM` to an event probe installed on the `src` pad of
`identity_out`. -/
def quiet (s : PluginBase) : Action → Bool
  | .set_plugin_state _ => false
  | .deliver =>
      match s.bin_events with
      | [] => true
      | e :: _ => s.out_src_probes.isEmpty || decide (e.event_type ≠ .CUSTOM_DOWNSTREAM)
  | .stream_event e => s.out_src_probes.isEmpty || decide (e.event_type ≠ .CUSTOM_DOWNSTREAM)
  | _ => true

/-- Every action of the run `acts` from `s` is quiet in the state it is taken in. -/
def before_marker : PluginBase → List Action → Bool
  | _, [] => true
  | s, a :: as => quiet s a && before_marker (step s a) as

/-- The unit is in the path and playing, and no idle probe of `disable()` is pending. -/
def Draining (s : PluginBase) : Prop :=
  unit_in_path s ∧ s.bin_state = .PLAYING ∧ PadProbe.idle_on_disable ∉ s.in_src_probes

/-- A unit in the path of a playing shell: the shell is set playing and `enable()` settles. -/
def playing_unit : PluginBase :=
  settled_run (PluginBase.new false ⟨false, false⟩) [.set_plugin_state .PLAYING, .call_enable]

/-- A detached unit in a playing shell. -/
def playing_bypass : PluginBase :=
  set_plugin_state .PLAYING (PluginBase.new false ⟨false, false⟩)

/-- A unit playing in the path with the event probe installed and the marker inside the unit:
`disable()` was called and its block probe has fired. -/
def trapped_unit : PluginBase := fire 0 playing_unit.disable

/-! ## Lemmas -/

theorem settle_enable (s : PluginBase) (h : s.in_src_probes = []) (he : s.bin_events = []) :
    settle s.enable = on_enable s := by
  rcases s with ⟨i, st, c, a, lio, lib, lbo, ps, bs, inp, outp, ev⟩
  simp only at h he
  subst h he
  cases a <;> cases lio <;> cases lib <;> cases lbo <;>
    simp [settle, PluginBase.enable, fire_all, fire, on_enable, gst_bin_get_by_name,
      gst_element_set_state, gst_element_unlink, gst_bin_add, gst_element_link_many,
      gst_element_link, in_src_free, out_sink_free, gst_element_sync_state_with_parent,
      deliver_all]

theorem settle_disable_idle (s : PluginBase) (h : s.in_src_probes = []) (he : s.bin_events = [])
    (hp : s.bin_state ≠ .PLAYING) : settle s.disable = on_disable s := by
  rcases s with ⟨i, st, c, a, lio, lib, lbo, ps, bs, inp, outp, ev⟩
  simp only at h he hp
  subst h he
  cases a <;> cases lio <;> cases lib <;> cases lbo <;>
    simp [settle, PluginBase.disable, gst_element_get_state, hp, fire_all, fire, on_disable,
      gst_bin_get_by_name,
      gst_element_set_state, gst_element_unlink, gst_element_unlink_many, gst_bin_remove,
      gst_element_link, in_src_free, out_sink_free,
      deliver_all]

theorem Wired.exactly_one {s : PluginBase} (h : Wired s) : exactly_one_wired s := by
  rcases h with ⟨h1, h2, h3, h4, _⟩ | ⟨h1, h2, h3, h4⟩
  · left; simp [bypass_wired, unit_in_path, h1, h2]
  · right; simp [bypass_wired, unit_in_path, h1, h2, h3, h4]

theorem on_enable_keeps (s : PluginBase) (hw : Wired s) (he : s.bin_events = []) :
    (on_enable s).in_src_probes = s.in_src_probes ∧
    (on_enable s).out_src_probes = s.out_src_probes ∧
    (on_enable s).bin_events = [] ∧ Wired (on_enable s) := by
  rcases s with ⟨i, st, c, a, lio, lib, lbo, ps, bs, inp, outp, ev⟩
  simp only at he
  subst he
  rcases hw with ⟨h1, h2, h3, h4, h5⟩ | ⟨h1, h2, h3, h4⟩ <;> simp only at h1 h2 h3 h4 <;>
    subst_vars <;>
    simp [Wired, on_enable, gst_bin_get_by_name,
      gst_element_set_state, gst_element_unlink, gst_bin_add, gst_element_link_many,
      gst_element_link, in_src_free, out_sink_free, gst_element_sync_state_with_parent]

theorem on_disable_keeps (s : PluginBase) (hw : Wired s) (he : s.bin_events = []) :
    (on_disable s).in_src_probes = s.in_src_probes ∧
    (on_disable s).out_src_probes = s.out_src_probes ∧
    (on_disable s).bin_events = [] ∧ Wired (on_disable s) := by
  rcases s with ⟨i, st, c, a, lio, lib, lbo, ps, bs, inp, outp, ev⟩
  simp only at he
  subst he
  rcases hw with ⟨h1, h2, h3, h4, h5⟩ | ⟨h1, h2, h3, h4⟩ <;> simp only at h1 h2 h3 h4 <;>
    subst_vars <;>
    simp_all [Wired, on_disable, gst_bin_get_by_name,
      gst_element_set_state, gst_element_unlink, gst_element_unlink_many, gst_bin_remove,
      gst_element_link, in_src_free, out_sink_free]

theorem fire_zero_idle (s : PluginBase) (p : PadProbe) (ps : List PadProbe)
    (hs : s.in_src_probes = p :: ps) (hp : p = .idle_on_enable ∨ p = .idle_on_disable)
    (ho : s.out_src_probes = []) (he : s.bin_events = []) (hw : Wired s) :
    (fire 0 s).in_src_probes = ps ∧ (fire 0 s).out_src_probes = [] ∧
    (fire 0 s).bin_events = [] ∧ Wired (fire 0 s) := by
  obtain ⟨e1, e2, e3, e4⟩ := on_enable_keeps s hw he
  obtain ⟨d1, d2, d3, d4⟩ := on_disable_keeps s hw he
  rcases hp with rfl | rfl
  · simp only [fire, hs, List.getElem?_cons_zero, e1, List.eraseIdx_cons_zero]
    exact ⟨trivial, by rw [e2, ho], e3, e4⟩
  · simp only [fire, hs, List.getElem?_cons_zero, d1, List.eraseIdx_cons_zero]
    exact ⟨trivial, by rw [d2, ho], d3, d4⟩

theorem fire_all_idle (n : Nat) : ∀ s : PluginBase, s.in_src_probes.length = n →
    idle_only s.in_src_probes → s.out_src_probes = [] → s.bin_events = [] → Wired s →
    Settled (fire_all n s) := by
  induction n with
  | zero =>
      intro s hn _ ho he hw
      exact ⟨List.length_eq_zero.mp hn, ho, he, hw⟩
  | succ n ih =>
      intro s hn hi ho he hw
      match hs : s.in_src_probes with
      | [] => simp [hs] at hn
      | p :: ps =>
          have hp := hi p (by simp [hs])
          obtain ⟨f1, f2, f3, f4⟩ := fire_zero_idle s p ps hs hp ho he hw
          have hlen : ps.length = n := by simpa [hs] using hn
          refine ih (fire 0 s) (by rw [f1, hlen]) ?_ f2 f3 f4
          rw [f1]
          intro q hq
          exact hi q (by simp [hs, hq])

theorem settle_idle (s : PluginBase) (hi : idle_only s.in_src_probes)
    (ho : s.out_src_probes = []) (he : s.bin_events = []) (hw : Wired s) :
    Settled (settle s) := by
  have h := fire_all_idle s.in_src_probes.length s rfl hi ho he hw
  have h3 : (fire_all s.in_src_probes.length s).bin_events = [] := h.2.2.1
  simp only [settle, h3, List.length_nil, deliver_all]
  exact h

theorem settle_block (s : PluginBase) (hs : s.in_src_probes = [.block_on_pad_blocked])
    (ho : s.out_src_probes = []) (he : s.bin_events = []) (hw : Wired s)
    (hp : s.bin_state = .PLAYING) : Settled (settle s) := by
  rcases s with ⟨i, st, c, a, lio, lib, lbo, ps, bs, inp, outp, ev⟩
  simp only at hs ho he hp
  subst hs ho he hp
  rcases hw with ⟨h1, h2, h3, h4, h5⟩ | ⟨h1, h2, h3, h4⟩
  · simp at h5
  · simp only at h1 h2 h3 h4
    subst_vars
    simp [Settled, Wired, settle, fire_all, fire, on_pad_blocked, gst_pad_send_event,
      remove_plugin_event, deliver_all, deliver, event_at_out_src, run_event_probes,
      event_probe_cb, on_disable, gst_bin_get_by_name,
      gst_element_set_state, gst_element_unlink, gst_element_unlink_many, gst_bin_remove,
      gst_element_link, in_src_free, out_sink_free]

theorem Settled.calm {s : PluginBase} (h : Settled s) (hc : s.state_signal_connections ≤ 1) :
    Calm s := by
  obtain ⟨h1, h2, h3, h4⟩ := h
  exact ⟨by simp [idle_only, h1], h2, h3, h4, Or.inl h1, hc⟩

theorem idle_only_append {ps : List PadProbe} {p : PadProbe} (h : idle_only ps)
    (hp : p = .idle_on_enable ∨ p = .idle_on_disable) : idle_only (ps ++ [p]) := by
  intro q hq
  rcases List.mem_append.mp hq with h1 | h1
  · exact h q h1
  · rw [List.mem_singleton.mp h1]; exact hp

theorem settle_enable_calm (s : PluginBase) (h : Calm s) : Settled (settle s.enable) := by
  obtain ⟨h1, h2, h3, h4, _⟩ := h
  exact settle_idle s.enable (idle_only_append h1 (Or.inl rfl)) h2 h3 h4

theorem settle_disable_calm (s : PluginBase) (h : Calm s) : Settled (settle s.disable) := by
  obtain ⟨h1, h2, h3, h4, h5, _⟩ := h
  by_cases hp : s.bin_state = .PLAYING
  · have hin : s.in_src_probes = [] := by
      rcases h5 with h5 | h5
      · exact h5
      · rw [hp] at h5; cases h5
    have hd : s.disable = { s with in_src_probes := [.block_on_pad_blocked] } := by
      simp [PluginBase.disable, gst_element_get_state, hp, hin]
    rw [hd]
    exact settle_block _ rfl h2 h3 h4 hp
  · have hd : s.disable = { s with in_src_probes := s.in_src_probes ++ [.idle_on_disable] } := by
      simp [PluginBase.disable, gst_element_get_state, hp]
    rw [hd]
    exact settle_idle _ (idle_only_append h1 (Or.inr rfl)) h2 h3 h4

theorem idle_only_eraseIdx {ps : List PadProbe} (h : idle_only ps) (i : Nat) :
    idle_only (ps.eraseIdx i) := by
  intro q hq
  exact h q (List.mem_of_mem_eraseIdx hq)

theorem settled_step_settled (s : PluginBase) (a : Action) (h : Calm s) :
    Settled (settled_step s a) := by
  obtain ⟨h1, h2, h3, h4, h5, h6⟩ := h
  cases a with
  | call_enable => exact settle_enable_calm s ⟨h1, h2, h3, h4, h5, h6⟩
  | call_disable => exact settle_disable_calm s ⟨h1, h2, h3, h4, h5, h6⟩
  | settings_changed v =>
      rcases Nat.le_one_iff_eq_zero_or_eq_one.mp h6 with h0 | h0
      · simp only [settled_step, step, settings_changed, h0, emit_changed_state]
        exact settle_idle _ h1 h2 h3 h4
      · simp only [settled_step, step, settings_changed, h0, emit_changed_state,
          on_state_changed]
        split
        · split
          · exact settle_enable_calm _ ⟨h1, h2, h3, h4, h5, Nat.le_refl 1⟩
          · exact settle_disable_calm _ ⟨h1, h2, h3, h4, h5, Nat.le_refl 1⟩
        · exact settle_idle _ h1 h2 h3 h4
  | set_plugin_state st =>
      simp only [settled_step, step, set_plugin_state]
      split
      · rename_i ha
        replace ha : s.bin_in_plugin = true := ha
        refine settle_idle _ h1 h2 ?_ ?_
        · simp [gst_element_set_state, h3]
        · rcases h4 with ⟨_, k, _⟩ | ⟨k1, k2, k3, k4⟩
          · rw [k] at ha; cases ha
          · exact Or.inr ⟨k1, k2, k3, k4⟩
      · exact settle_idle _ h1 h2 h3 h4
  | fire i =>
      obtain ⟨e1, e2, e3, e4⟩ := on_enable_keeps s h4 h3
      obtain ⟨d1, d2, d3, d4⟩ := on_disable_keeps s h4 h3
      simp only [settled_step, step, fire]
      split
      · refine settle_idle _ ?_ (by rw [← h2]; exact e2) e3 e4
        simp only [e1]
        exact idle_only_eraseIdx h1 i
      · refine settle_idle _ ?_ (by rw [← h2]; exact d2) d3 d4
        simp only [d1]
        exact idle_only_eraseIdx h1 i
      · rename_i hg
        have hm : PadProbe.block_on_pad_blocked ∈ s.in_src_probes := List.getElem?_mem hg
        rcases h1 _ hm with k | k <;> cases k
      · exact settle_idle _ h1 h2 h3 h4
  | deliver =>
      simp only [settled_step, step, deliver, h3]
      exact settle_idle _ h1 h2 h3 h4
  | stream_event e =>
      simp only [settled_step, step, stream_event, event_at_out_src, h2, List.length_nil,
        run_event_probes, ite_self]
      exact settle_idle _ h1 h2 h3 h4

theorem on_enable_connections (s : PluginBase) :
    (on_enable s).state_signal_connections = s.state_signal_connections := by
  rcases s with ⟨i, st, c, a, lio, lib, lbo, ps, bs, inp, outp, ev⟩
  cases a <;> cases lio <;> cases lib <;> cases lbo <;>
    simp [on_enable, gst_bin_get_by_name,
      gst_element_set_state, gst_element_unlink, gst_bin_add, gst_element_link_many,
      gst_element_link, in_src_free, out_sink_free, gst_element_sync_state_with_parent]

theorem on_disable_connections (s : PluginBase) :
    (on_disable s).state_signal_connections = s.state_signal_connections := by
  rcases s with ⟨i, st, c, a, lio, lib, lbo, ps, bs, inp, outp, ev⟩
  cases a <;> cases lio <;> cases lib <;> cases lbo <;>
    simp [on_disable, gst_bin_get_by_name,
      gst_element_set_state, gst_element_unlink, gst_element_unlink_many, gst_bin_remove,
      gst_element_link, in_src_free, out_sink_free]

theorem fire_connections (i : Nat) (s : PluginBase) :
    (fire i s).state_signal_connections = s.state_signal_connections := by
  simp only [fire]
  split
  · exact on_enable_connections s
  · exact on_disable_connections s
  · simp only [on_pad_blocked, gst_pad_send_event]
    split <;> rfl
  · rfl

theorem fire_all_connections (n : Nat) : ∀ s : PluginBase,
    (fire_all n s).state_signal_connections = s.state_signal_connections := by
  induction n with
  | zero => intro s; rfl
  | succ n ih => intro s; rw [fire_all, ih, fire_connections]

theorem run_event_probes_connections (e : GstEvent) (n : Nat) : ∀ (i : Nat) (s : PluginBase),
    (run_event_probes e n i s).state_signal_connections = s.state_signal_connections := by
  induction n with
  | zero => intro i s; rfl
  | succ n ih =>
      intro i s
      by_cases he : e.event_type = .CUSTOM_DOWNSTREAM
      · simp only [run_event_probes, event_probe_cb, he, ne_eq, not_true_eq_false, if_false]
        split
        · exact on_disable_connections _
        · rfl
      · simp only [run_event_probes, event_probe_cb, he, ne_eq, not_false_eq_true, if_true]
        split
        · exact ih (i + 1) s
        · rfl

theorem deliver_connections (s : PluginBase) :
    (deliver s).state_signal_connections = s.state_signal_connections := by
  simp only [deliver]
  split
  · rfl
  · split
    · simp only [event_at_out_src]
      rw [run_event_probes_connections]
    · rfl

theorem deliver_all_connections (n : Nat) : ∀ s : PluginBase,
    (deliver_all n s).state_signal_connections = s.state_signal_connections := by
  induction n with
  | zero => intro s; rfl
  | succ n ih => intro s; rw [deliver_all, ih, deliver_connections]

theorem settle_connections (s : PluginBase) :
    (settle s).state_signal_connections = s.state_signal_connections := by
  simp only [settle]
  rw [deliver_all_connections, fire_all_connections]

theorem on_state_changed_connections (key : Key) (s : PluginBase) :
    (on_state_changed key s).state_signal_connections = s.state_signal_connections := by
  simp only [on_state_changed, PluginBase.enable, PluginBase.disable]
  split
  · split
    · rfl
    · split <;> rfl
  · rfl

theorem emit_changed_state_connections (n : Nat) : ∀ s : PluginBase,
    (emit_changed_state n s).state_signal_connections = s.state_signal_connections := by
  induction n with
  | zero => intro s; rfl
  | succ n ih => intro s; rw [emit_changed_state, ih, on_state_changed_connections]

theorem step_connections (s : PluginBase) (a : Action) :
    (step s a).state_signal_connections = s.state_signal_connections := by
  cases a with
  | call_enable => rfl
  | call_disable =>
      simp only [step, PluginBase.disable]
      split <;> rfl
  | settings_changed v =>
      simp only [step, settings_changed]
      rw [emit_changed_state_connections]
  | set_plugin_state st =>
      simp only [step, set_plugin_state]
      split <;> rfl
  | fire i => exact fire_connections i s
  | deliver => exact deliver_connections s
  | stream_event e =>
      simp only [step, stream_event]
      split
      · simp only [event_at_out_src]
        rw [run_event_probes_connections]
      · rfl

theorem settled_step_calm (s : PluginBase) (a : Action) (h : Calm s) :
    Calm (settled_step s a) := by
  refine (settled_step_settled s a h).calm ?_
  rw [settled_step, settle_connections, step_connections]
  exact h.2.2.2.2.2

theorem settled_run_calm (acts : List Action) : ∀ s : PluginBase, Calm s →
    Calm (settled_run s acts) := by
  induction acts with
  | nil => intro s h; exact h
  | cons a as ih =>
      intro s h
      exact ih (settled_step s a) (settled_step_calm s a h)

theorem new_calm (i : Bool) (store : GSettings) : Calm (PluginBase.new i store) := by
  cases i <;> cases hs : store.state <;>
    simp [Calm, Wired, idle_only, PluginBase.new, on_state_changed, gst_element_link,
      in_src_free, out_sink_free, g_settings_get_boolean, hs, PluginBase.enable,
      PluginBase.disable, gst_element_get_state]

theorem settle_settled (s : PluginBase) (h : Settled s) : settle s = s := by
  obtain ⟨h1, _, h3, _⟩ := h
  simp [settle, h1, h3, fire_all, deliver_all]

theorem settle_disable_block (s : PluginBase) (h : s.in_src_probes = [])
    (he : s.bin_events = []) (hp : s.bin_state = .PLAYING) :
    settle s.disable =
      if s.link_bin_out then
        on_disable { s with out_src_probes := (s.out_src_probes ++ [PadProbe.event_probe_cb]).eraseIdx 0 }
      else { s with out_src_probes := s.out_src_probes ++ [PadProbe.event_probe_cb] } := by
  rcases s with ⟨i, st, c, a, lio, lib, lbo, ps, bs, inp, outp, ev⟩
  simp only at h he hp
  subst h he hp
  cases a <;> cases lio <;> cases lib <;> cases lbo <;>
    simp [settle, PluginBase.disable, gst_element_get_state, fire_all, fire, on_pad_blocked,
      gst_pad_send_event, remove_plugin_event, deliver_all, deliver, event_at_out_src,
      run_event_probes, event_probe_cb, on_disable, gst_bin_get_by_name,
      gst_element_set_state, gst_element_unlink, gst_element_unlink_many, gst_bin_remove,
      gst_element_link, in_src_free, out_sink_free]

theorem on_enable_idem (s : PluginBase) : on_enable (on_enable s) = on_enable s := by
  rcases s with ⟨i, st, c, a, lio, lib, lbo, ps, bs, inp, outp, ev⟩
  cases a <;> cases lio <;> cases lib <;> cases lbo <;>
    simp [on_enable, gst_bin_get_by_name,
      gst_element_set_state, gst_element_unlink, gst_bin_add, gst_element_link_many,
      gst_element_link, in_src_free, out_sink_free, gst_element_sync_state_with_parent]

theorem on_disable_idem (s : PluginBase) : on_disable (on_disable s) = on_disable s := by
  rcases s with ⟨i, st, c, a, lio, lib, lbo, ps, bs, inp, outp, ev⟩
  cases a <;> cases lio <;> cases lib <;> cases lbo <;>
    simp [on_disable, gst_bin_get_by_name,
      gst_element_set_state, gst_element_unlink, gst_element_unlink_many, gst_bin_remove,
      gst_element_link, in_src_free, out_sink_free]

theorem eraseIdx_concat_length {α : Type} (l : List α) (a : α) :
    (l ++ [a]).eraseIdx l.length = l := by
  rw [List.eraseIdx_append_of_length_le (Nat.le_refl _)]
  simp

theorem fire_idle_enable_last (s : PluginBase) :
    fire s.in_src_probes.length s.enable = on_enable s := by
  rcases s with ⟨i, st, c, a, lio, lib, lbo, ps, bs, inp, outp, ev⟩
  cases a <;> cases lio <;> cases lib <;> cases lbo <;>
    simp [fire, PluginBase.enable, eraseIdx_concat_length, on_enable, gst_bin_get_by_name,
      gst_element_set_state, gst_element_unlink, gst_bin_add, gst_element_link_many,
      gst_element_link, in_src_free, out_sink_free, gst_element_sync_state_with_parent]

theorem on_enable_pending (s : PluginBase) :
    (on_enable s).in_src_probes = s.in_src_probes ∧
    (s.bin_events = [] → (on_enable s).bin_events = []) := by
  rcases s with ⟨i, st, c, a, lio, lib, lbo, ps, bs, inp, outp, ev⟩
  cases a <;> cases lio <;> cases lib <;> cases lbo <;>
    simp [on_enable, gst_bin_get_by_name,
      gst_element_set_state, gst_element_unlink, gst_bin_add, gst_element_link_many,
      gst_element_link, in_src_free, out_sink_free, gst_element_sync_state_with_parent]

theorem on_disable_pending (s : PluginBase) :
    (on_disable s).in_src_probes = s.in_src_probes ∧
    (s.bin_events = [] → (on_disable s).bin_events = []) := by
  rcases s with ⟨i, st, c, a, lio, lib, lbo, ps, bs, inp, outp, ev⟩
  cases a <;> cases lio <;> cases lib <;> cases lbo <;>
    simp [on_disable, gst_bin_get_by_name,
      gst_element_set_state, gst_element_unlink, gst_element_unlink_many, gst_bin_remove,
      gst_element_link, in_src_free, out_sink_free]

theorem on_state_changed_bypassed (s : PluginBase) (h : Bypassed s) :
    Bypassed (on_state_changed .state s) := by
  obtain ⟨hi, hs, hl, hb⟩ := h
  have hk : on_state_changed .state s
      = { s with settings := g_settings_set_boolean s.settings .installed false } := by
    simp [on_state_changed, hi]
  rw [hk]
  exact ⟨hi, hs, hl, hb⟩

theorem emit_changed_state_bypassed (n : Nat) : ∀ s : PluginBase, Bypassed s →
    Bypassed (emit_changed_state n s) := by
  induction n with
  | zero => intro s h; exact h
  | succ n ih => intro s h; exact ih _ (on_state_changed_bypassed s h)

theorem step_bypassed (s : PluginBase) (a : Action) (h : Bypassed s)
    (ha : a ≠ .call_enable ∧ a ≠ .call_disable) : Bypassed (step s a) := by
  have hset : ∀ v, Bypassed (step s (.settings_changed v)) := fun v =>
    emit_changed_state_bypassed _ _ h
  rcases s with ⟨i, st, c, b, lio, lib, lbo, ps, bs, inp, outp, ev⟩
  obtain ⟨hi, ⟨q1, q2, q3, q4⟩, hl, hb⟩ := h
  simp only at hi q1 q2 q3 hl hb
  subst hi q1 q2 q3 hl hb
  cases a with
  | call_enable => exact absurd rfl ha.1
  | call_disable => exact absurd rfl ha.2
  | settings_changed v => exact hset v
  | set_plugin_state st =>
      simpa [Bypassed, Settled, Wired, step, set_plugin_state] using q4
  | fire i =>
      simpa [Bypassed, Settled, Wired, step, fire] using q4
  | deliver =>
      simpa [Bypassed, Settled, Wired, step, deliver] using q4
  | stream_event e =>
      simpa [Bypassed, Settled, Wired, step, stream_event, event_at_out_src,
        run_event_probes] using q4

theorem settled_run_bypassed (acts : List Action) : ∀ s : PluginBase, Bypassed s →
    (∀ a ∈ acts, a ≠ .call_enable ∧ a ≠ .call_disable) → Bypassed (settled_run s acts) := by
  induction acts with
  | nil => intro s h _; exact h
  | cons a as ih =>
      intro s h ha
      have h1 : Bypassed (step s a) := step_bypassed s a h (ha a (by simp))
      have h2 : settled_step s a = step s a := settle_settled _ h1.2.1
      have h3 : settled_run s (a :: as) = settled_run (step s a) as := by
        simp [settled_run, h2]
      rw [h3]
      exact ih _ h1 (fun b hb => ha b (by simp [hb]))

theorem run_event_probes_pass (e : GstEvent) (h : e.event_type ≠ .CUSTOM_DOWNSTREAM)
    (n : Nat) : ∀ (i : Nat) (s : PluginBase), run_event_probes e n i s = s := by
  induction n with
  | zero => intro i s; rfl
  | succ n ih =>
      intro i s
      simp only [run_event_probes, event_probe_cb, h, ne_eq, not_false_eq_true, if_true]
      split
      · exact ih (i + 1) s
      · rfl

theorem event_at_out_src_quiet (e : GstEvent) (s : PluginBase)
    (h : (s.out_src_probes.isEmpty || decide (e.event_type ≠ .CUSTOM_DOWNSTREAM)) = true) :
    event_at_out_src e s = s := by
  by_cases he : e.event_type = .CUSTOM_DOWNSTREAM
  · have hn : s.out_src_probes = [] := by
      cases hs : s.out_src_probes with
      | nil => rfl
      | cons p ps => simp [hs, he] at h
    simp [event_at_out_src, hn, run_event_probes]
  · exact run_event_probes_pass e he _ 0 s

theorem on_state_changed_draining (s : PluginBase) (h : Draining s) :
    Draining (on_state_changed .state s) ∧ wiring (on_state_changed .state s) = wiring s := by
  obtain ⟨⟨u1, u2, u3⟩, hp, hn⟩ := h
  have hd : s.disable
      = { s with in_src_probes := s.in_src_probes ++ [.block_on_pad_blocked] } := by
    simp [PluginBase.disable, gst_element_get_state, hp]
  simp only [on_state_changed]
  split
  · split
    · refine ⟨⟨⟨u1, u2, u3⟩, hp, ?_⟩, rfl⟩
      simpa [PluginBase.enable] using hn
    · rw [hd]
      refine ⟨⟨⟨u1, u2, u3⟩, hp, ?_⟩, rfl⟩
      simpa using hn
  · exact ⟨⟨⟨u1, u2, u3⟩, hp, hn⟩, rfl⟩

theorem emit_changed_state_draining (n : Nat) : ∀ s : PluginBase, Draining s →
    Draining (emit_changed_state n s) ∧ wiring (emit_changed_state n s) = wiring s := by
  induction n with
  | zero => intro s h; exact ⟨h, rfl⟩
  | succ n ih =>
      intro s h
      obtain ⟨k1, k2⟩ := on_state_changed_draining s h
      obtain ⟨m1, m2⟩ := ih _ k1
      exact ⟨m1, by rw [emit_changed_state, m2, k2]⟩

theorem step_draining (s : PluginBase) (a : Action) (h : Draining s)
    (hq : quiet s a = true) :
    Draining (step s a) ∧ wiring (step s a) = wiring s := by
  obtain ⟨⟨u1, u2, u3⟩, hp, hn⟩ := h
  cases a with
  | call_enable =>
      refine ⟨⟨⟨u1, u2, u3⟩, hp, ?_⟩, rfl⟩
      simpa [step, PluginBase.enable] using hn
  | call_disable =>
      have hd : s.disable
          = { s with in_src_probes := s.in_src_probes ++ [.block_on_pad_blocked] } := by
        simp [PluginBase.disable, gst_element_get_state, hp]
      simp only [step, hd]
      refine ⟨⟨⟨u1, u2, u3⟩, hp, ?_⟩, rfl⟩
      simpa using hn
  | settings_changed v =>
      exact emit_changed_state_draining _
        { s with settings := g_settings_set_boolean s.settings .state v }
        ⟨⟨u1, u2, u3⟩, hp, hn⟩
  | set_plugin_state st => simp [quiet] at hq
  | fire i =>
      have hen : on_enable s = s := by simp [on_enable, gst_bin_get_by_name, u1]
      have hsub : PadProbe.idle_on_disable ∉ s.in_src_probes.eraseIdx i :=
        fun hm => hn (List.mem_of_mem_eraseIdx hm)
      simp only [step, fire]
      split
      · rw [hen]
        exact ⟨⟨⟨u1, u2, u3⟩, hp, hsub⟩, rfl⟩
      · rename_i hg
        exact absurd (List.getElem?_mem hg) hn
      · simp only [on_pad_blocked, gst_pad_send_event, hp, or_true, if_true]
        exact ⟨⟨⟨u1, u2, u3⟩, rfl, hsub⟩, rfl⟩
      · exact ⟨⟨⟨u1, u2, u3⟩, hp, hn⟩, rfl⟩
  | deliver =>
      simp only [step, deliver]
      split
      · exact ⟨⟨⟨u1, u2, u3⟩, hp, hn⟩, rfl⟩
      · rename_i e es hev
        simp only [quiet, hev] at hq
        have hk : ∀ t : PluginBase, t.out_src_probes = s.out_src_probes →
            event_at_out_src e t = t :=
          fun t ht => event_at_out_src_quiet e t (by rw [ht]; exact hq)
        rw [if_pos u3, hk { s with bin_events := es } rfl]
        exact ⟨⟨⟨u1, u2, u3⟩, hp, hn⟩, rfl⟩
  | stream_event e =>
      simp only [quiet] at hq
      simp only [step, stream_event]
      split
      · rw [event_at_out_src_quiet e _ hq]
        exact ⟨⟨⟨u1, u2, u3⟩, hp, hn⟩, rfl⟩
      · exact ⟨⟨⟨u1, u2, u3⟩, hp, hn⟩, rfl⟩

theorem run_draining (acts : List Action) : ∀ s : PluginBase, Draining s →
    before_marker s acts = true → wiring (run s acts) = wiring s := by
  induction acts with
  | nil => intro s _ _; rfl
  | cons a as ih =>
      intro s h hb
      simp only [before_marker, Bool.and_eq_true] at hb
      obtain ⟨b1, b3⟩ := hb
      obtain ⟨k1, k2⟩ := step_draining s a h b1
      have hr : run s (a :: as) = run (step s a) as := by simp [run]
      rw [hr, ih _ k1 b3, k2]

theorem disable_not_playing (s : PluginBase) (hp : s.bin_state ≠ .PLAYING) :
    s.disable = { s with in_src_probes := s.in_src_probes ++ [.idle_on_disable] } := by
  simp [PluginBase.disable, gst_element_get_state, hp]

theorem disable_playing (s : PluginBase) (hp : s.bin_state = .PLAYING) :
    s.disable = { s with in_src_probes := s.in_src_probes ++ [.block_on_pad_blocked] } := by
  simp [PluginBase.disable, gst_element_get_state, hp]

theorem on_disable_sends_nothing (s : PluginBase) :
    (on_disable s).out_src_probes = s.out_src_probes ∧
    ∀ e ∈ (on_disable s).bin_events, e ∈ s.bin_events := by
  rcases s with ⟨i, st, c, a, lio, lib, lbo, ps, bs, inp, outp, ev⟩
  cases a <;> cases lio <;> cases lib <;> cases lbo <;>
    simp [on_disable, gst_bin_get_by_name,
      gst_element_set_state, gst_element_unlink, gst_element_unlink_many, gst_bin_remove,
      gst_element_link, in_src_free, out_sink_free]

theorem on_disable_not_playing (s : PluginBase) (hp : s.bin_state ≠ .PLAYING) :
    (on_disable s).bin_state ≠ .PLAYING := by
  rcases s with ⟨i, st, c, a, lio, lib, lbo, ps, bs, inp, outp, ev⟩
  cases a <;> cases lio <;> cases lib <;> cases lbo <;>
    simp_all [on_disable, gst_bin_get_by_name,
      gst_element_set_state, gst_element_unlink, gst_element_unlink_many, gst_bin_remove,
      gst_element_link, in_src_free, out_sink_free]

theorem fire_idle_disable_last (s : PluginBase) :
    fire s.in_src_probes.length { s with in_src_probes := s.in_src_probes ++ [.idle_on_disable] }
      = on_disable s := by
  rcases s with ⟨i, st, c, a, lio, lib, lbo, ps, bs, inp, outp, ev⟩
  cases a <;> cases lio <;> cases lib <;> cases lbo <;>
    simp [fire, eraseIdx_concat_length, on_disable, gst_bin_get_by_name,
      gst_element_set_state, gst_element_unlink, gst_element_unlink_many, gst_bin_remove,
      gst_element_link, in_src_free, out_sink_free]

/-- The destructor releases the unit exactly when the stored flag `"state"` reads false, and
the settings handle always; this agrees with "exactly when the unit is detached" precisely in
the states where the stored flag equals the attachment. -/
theorem destroy_releases_by_stored_flag (s : PluginBase) :
    s.destroy.bin_unref = !(g_settings_get_boolean s.settings .state) ∧
    s.destroy.settings_unref = true ∧
    ((s.destroy.bin_unref = true ↔ s.bin_in_plugin = false) ↔
      g_settings_get_boolean s.settings .state = s.bin_in_plugin) := by
  rcases s with ⟨i, ⟨si, ss⟩, c, b, lio, lib, lbo, ps, bs, inp, outp, ev⟩
  cases ss <;> cases b <;> simp [PluginBase.destroy, g_settings_get_boolean]

/-! ## The claims -/

/-- C1: starting from the freshly constructed splice point, after every finite sequence of
actions (among them the calls of `enable()` and `disable()`) each of which is settled before
the next, exactly one of the direct link `identity_in → identity_out` and the attached unit
linked `identity_in → bin → identity_out` is wired. -/
theorem C1_exactly_one_wiring_after_settled_calls (plugin_is_installed : Bool)
    (store : GSettings) (acts : List Action) :
    exactly_one_wired (settled_run (PluginBase.new plugin_is_installed store) acts) :=
  (settled_run_calm acts _ (new_calm plugin_is_installed store)).2.2.2.1.exactly_one

/-- C2: the transitions are idempotent.  At every state, running the idle callback of a second
`enable()` after that of a first changes nothing (`on_enable` takes its already-enabled branch),
the same holds for `disable()` when the unit is not playing, and `on_disable` run twice equals
`on_disable` run once.  In a state with nothing pending, a
settled call of `enable()` followed by a second settled call leaves the same state as the
first alone, and a settled call of `disable()` followed by a second leaves the same wiring,
attachment and unit play state as the first alone. -/
theorem C2_settled_calls_idempotent (s : PluginBase) :
    fire s.in_src_probes.length (fire s.in_src_probes.length s.enable).enable
      = fire s.in_src_probes.length s.enable ∧
    on_enable (on_enable s) = on_enable s ∧
    (s.bin_state ≠ .PLAYING →
      fire s.in_src_probes.length (fire s.in_src_probes.length s.disable).disable
        = fire s.in_src_probes.length s.disable) ∧
    on_disable (on_disable s) = on_disable s ∧
    (s.in_src_probes = [] → s.bin_events = [] →
      settled_step (settled_step s .call_enable) .call_enable = settled_step s .call_enable ∧
      observable (settled_step (settled_step s .call_disable) .call_disable)
        = observable (settled_step s .call_disable)) := by
  refine ⟨?_, on_enable_idem s, fun hp => ?_, on_disable_idem s, fun h he => ⟨?_, ?_⟩⟩
  · rw [fire_idle_enable_last s]
    have hl : (on_enable s).in_src_probes.length = s.in_src_probes.length := by
      rw [(on_enable_pending s).1]
    rw [← hl, fire_idle_enable_last (on_enable s), on_enable_idem]
  · rw [disable_not_playing s hp, fire_idle_disable_last s]
    have hl : (on_disable s).in_src_probes.length = s.in_src_probes.length := by
      rw [(on_disable_pending s).1]
    have hq : (on_disable s).bin_state ≠ .PLAYING := on_disable_not_playing s hp
    rw [disable_not_playing _ hq, ← hl, fire_idle_disable_last (on_disable s), on_disable_idem]
  · simp only [settled_step, step]
    rw [settle_enable s h he]
    obtain ⟨p1, p2⟩ := on_enable_pending s
    rw [settle_enable _ (by rw [p1, h]) (p2 he), on_enable_idem]
  · simp only [settled_step, step]
    by_cases hp : s.bin_state = .PLAYING
    · rw [settle_disable_block s h he hp]
      rcases s with ⟨i, st, c, a, lio, lib, lbo, ps, bs, inp, outp, ev⟩
      simp only at h he hp
      subst h he hp
      cases a <;> cases lio <;> cases lib <;> cases lbo <;>
        simp [observable, wiring, settle, PluginBase.disable, gst_element_get_state, fire_all,
          fire, on_pad_blocked, gst_pad_send_event, remove_plugin_event, deliver_all, deliver,
          event_at_out_src, run_event_probes, event_probe_cb, on_disable, gst_bin_get_by_name,
          gst_element_set_state, gst_element_unlink, gst_element_unlink_many, gst_bin_remove,
          gst_element_link, in_src_free, out_sink_free]
    · rw [settle_disable_idle s h he hp]
      rcases s with ⟨i, st, c, a, lio, lib, lbo, ps, bs, inp, outp, ev⟩
      simp only at h he hp
      subst h he
      cases a <;> cases lio <;> cases lib <;> cases lbo <;>
        simp [hp, observable, wiring, settle, PluginBase.disable, gst_element_get_state,
          fire_all, fire, deliver_all, on_disable, gst_bin_get_by_name,
          gst_element_set_state, gst_element_unlink, gst_element_unlink_many, gst_bin_remove,
          gst_element_link, in_src_free, out_sink_free]

/-- Witness of C2 at a unit playing in the path, where `disable()` takes the block branch. -/
theorem C2_settled_calls_idempotent_witness :
    settled_step (settled_step playing_unit .call_enable) .call_enable
      = settled_step playing_unit .call_enable ∧
    observable (settled_step (settled_step playing_unit .call_disable) .call_disable)
      = observable (settled_step playing_unit .call_disable) :=
  (C2_settled_calls_idempotent playing_unit).2.2.2.2 (by decide) (by decide)

/-- C3: in a state with nothing pending where the unit is detached, linked to neither
endpoint, and `identity_in` is linked directly to `identity_out`, a settled `enable()`
followed by a settled `disable()` yields exactly the original wiring. -/
theorem C3_enable_disable_round_trip (s : PluginBase)
    (h : s.in_src_probes = []) (he : s.bin_events = [])
    (hd : s.bin_in_plugin = false) (h1 : s.link_in_out = true)
    (h2 : s.link_in_bin = false) (h3 : s.link_bin_out = false) :
    wiring (settled_step (settled_step s .call_enable) .call_disable) = wiring s ∧
    wiring (settled_step (settled_step s .call_enable) .call_disable)
      = (true, false, false, false) := by
  simp only [settled_step, step]
  rw [settle_enable s h he]
  rcases s with ⟨i, st, c, a, lio, lib, lbo, ps, bs, inp, outp, ev⟩
  simp only at h he hd h1 h2 h3
  subst h he hd h1 h2 h3
  by_cases hp : ps = .PLAYING
  · subst hp
    simp [wiring, settle, PluginBase.disable, gst_element_get_state, fire_all,
      fire, on_pad_blocked, gst_pad_send_event, remove_plugin_event, deliver_all, deliver,
      event_at_out_src, run_event_probes, event_probe_cb, on_disable, on_enable,
      gst_bin_get_by_name, gst_bin_add, gst_element_link_many,
      gst_element_sync_state_with_parent,
      gst_element_set_state, gst_element_unlink, gst_element_unlink_many, gst_bin_remove,
      gst_element_link, in_src_free, out_sink_free]
  · simp [hp, wiring, settle, PluginBase.disable, gst_element_get_state, fire_all,
      fire, deliver_all, on_disable, on_enable,
      gst_bin_get_by_name, gst_bin_add, gst_element_link_many,
      gst_element_sync_state_with_parent,
      gst_element_set_state, gst_element_unlink, gst_element_unlink_many, gst_bin_remove,
      gst_element_link, in_src_free, out_sink_free]

/-- Witness of C3 at the freshly constructed splice point inside a playing pipeline. -/
theorem C3_enable_disable_round_trip_witness :
    wiring (settled_step (settled_step
        (set_plugin_state .PLAYING (PluginBase.new false ⟨false, false⟩)) .call_enable)
        .call_disable)
      = wiring (set_plugin_state .PLAYING (PluginBase.new false ⟨false, false⟩)) ∧
    wiring (settled_step (settled_step
        (set_plugin_state .PLAYING (PluginBase.new false ⟨false, false⟩)) .call_enable)
        .call_disable)
      = (true, false, false, false) :=
  C3_enable_disable_round_trip
    (set_plugin_state .PLAYING (PluginBase.new false ⟨false, false⟩))
    (by decide) (by decide) (by decide) (by decide) (by decide) (by decide)

/-- C4 as stated fails: after `is_installed (nullptr)` a settled call of `enable()` attaches
the unit and removes the direct link. -/
theorem C4_counterexample :
    ((PluginBase.new false ⟨false, false⟩).is_installed none).2.plugin_is_installed = false ∧
    (settled_step ((PluginBase.new false ⟨false, false⟩).is_installed none).2
        .call_enable).bin_in_plugin = true ∧
    (settled_step ((PluginBase.new false ⟨false, false⟩).is_installed none).2
        .call_enable).link_in_out = false := by
  decide

/-- C4, amended: when the capability is missing, nothing is pending and the bypass is wired,
every sequence of settled actions other than direct calls of `enable()` and `disable()`
(changes of the stored flag handled by `on_state_changed` among them) leaves the shell in
bypass: the unit is not attached and the direct link is in place. -/
theorem C4_missing_capability_stays_bypassed (s : PluginBase)
    (hi : s.plugin_is_installed = false) (hs : Settled s)
    (hl : s.link_in_out = true) (hb : s.bin_in_plugin = false) (acts : List Action)
    (ha : ∀ a ∈ acts, a ≠ .call_enable ∧ a ≠ .call_disable) :
    (settled_run s acts).link_in_out = true ∧ (settled_run s acts).bin_in_plugin = false ∧
    (settled_run s acts).in_src_probes = [] ∧ (settled_run s acts).plugin_is_installed = false := by
  obtain ⟨k1, k2, k3, k4⟩ := settled_run_bypassed acts s ⟨hi, hs, hl, hb⟩ ha
  exact ⟨k3, k4, k2.1, k1⟩

/-- Witness of C4: the handler is connected, the capability is then reported missing, and the
store asks for the unit twice. -/
theorem C4_missing_capability_stays_bypassed_witness :
    (settled_run
      (((PluginBase.new false ⟨false, false⟩).is_installed (some ())).2.is_installed none).2
      [.settings_changed true, .set_plugin_state .PLAYING, .settings_changed true]).link_in_out
      = true ∧
    (settled_run
      (((PluginBase.new false ⟨false, false⟩).is_installed (some ())).2.is_installed none).2
      [.settings_changed true, .set_plugin_state .PLAYING, .settings_changed true]).bin_in_plugin
      = false ∧
    (settled_run
      (((PluginBase.new false ⟨false, false⟩).is_installed (some ())).2.is_installed none).2
      [.settings_changed true, .set_plugin_state .PLAYING, .settings_changed true]).in_src_probes
      = [] ∧
    (settled_run
      (((PluginBase.new false ⟨false, false⟩).is_installed (some ())).2.is_installed none).2
      [.settings_changed true, .set_plugin_state .PLAYING,
        .settings_changed true]).plugin_is_installed
      = false :=
  C4_missing_capability_stays_bypassed
    (((PluginBase.new false ⟨false, false⟩).is_installed (some ())).2.is_installed none).2
    (by decide) (by decide) (by decide) (by decide)
    [.settings_changed true, .set_plugin_state .PLAYING, .settings_changed true] (by decide)

/-- C5 as stated fails: with the capability missing and the stored flag true, the handler
leaves `"state"` true; what it writes is `"installed"`. -/
theorem C5_counterexample :
    (PluginBase.new false ⟨true, true⟩).plugin_is_installed = false ∧
    (on_state_changed .state (PluginBase.new false ⟨true, true⟩)).settings.state = true ∧
    (on_state_changed .state (PluginBase.new false ⟨true, true⟩)).settings.installed = false := by
  decide

/-- C5, amended: when `on_state_changed` runs with `plugin_is_installed` false it calls neither
`enable()` nor `disable()` (no probe is installed, nothing but the store changes) and writes
false to the key `"installed"`; the key `"state"` keeps its value. -/
theorem C5_handler_without_capability (s : PluginBase) (key : Key)
    (hi : s.plugin_is_installed = false) :
    on_state_changed key s
      = { s with settings := { installed := false, state := s.settings.state } } ∧
    (on_state_changed key s).in_src_probes = s.in_src_probes ∧
    (on_state_changed key s).out_src_probes = s.out_src_probes ∧
    g_settings_get_boolean (on_state_changed key s).settings .installed = false ∧
    g_settings_get_boolean (on_state_changed key s).settings .state
      = g_settings_get_boolean s.settings .state := by
  simp [on_state_changed, hi, g_settings_set_boolean, g_settings_get_boolean]

/-- Witness of C5 with the stored flag true. -/
theorem C5_handler_without_capability_witness :
    on_state_changed .state (PluginBase.new false ⟨true, true⟩)
      = { PluginBase.new false ⟨true, true⟩ with
          settings := { installed := false,
                        state := (PluginBase.new false ⟨true, true⟩).settings.state } } ∧
    (on_state_changed .state (PluginBase.new false ⟨true, true⟩)).in_src_probes
      = (PluginBase.new false ⟨true, true⟩).in_src_probes ∧
    (on_state_changed .state (PluginBase.new false ⟨true, true⟩)).out_src_probes
      = (PluginBase.new false ⟨true, true⟩).out_src_probes ∧
    g_settings_get_boolean
      (on_state_changed .state (PluginBase.new false ⟨true, true⟩)).settings .installed
      = false ∧
    g_settings_get_boolean
      (on_state_changed .state (PluginBase.new false ⟨true, true⟩)).settings .state
      = g_settings_get_boolean (PluginBase.new false ⟨true, true⟩).settings .state :=
  C5_handler_without_capability (PluginBase.new false ⟨true, true⟩) .state (by decide)

/-- C6 as stated fails: in a playing shell whose unit is detached (and therefore stopped),
`disable()` installs an idle probe and no block probe. -/
theorem C6_counterexample :
    (set_plugin_state .PLAYING (PluginBase.new false ⟨false, false⟩)).plugin_state = .PLAYING ∧
    (set_plugin_state .PLAYING (PluginBase.new false ⟨false, false⟩)).disable.in_src_probes
      = [.idle_on_disable] := by
  decide

/-- C6, amended: `disable()` chooses its branch by the play state of the unit `bin`.  When the
unit is not playing it installs an idle probe whose firing is exactly `on_disable`, which
installs no event probe and sends no event.  When the unit is playing it installs a block
probe; if the unit is in the path and no idle probe of `disable()` is pending, the wiring is
unchanged along every run in which no `CUSTOM_DOWNSTREAM` event reaches an installed event
probe and the play state is not changed; and with nothing else pending, the block probe firing
and the marker leaving the unit restore the bypass. -/
theorem C6_disable_branch_by_unit_state (s : PluginBase) :
    (s.bin_state ≠ .PLAYING →
      s.disable.in_src_probes = s.in_src_probes ++ [.idle_on_disable] ∧
      fire s.in_src_probes.length s.disable = on_disable s ∧
      (on_disable s).out_src_probes = s.out_src_probes ∧
      (∀ e ∈ (on_disable s).bin_events, e ∈ s.bin_events)) ∧
    (s.bin_state = .PLAYING →
      s.disable.in_src_probes = s.in_src_probes ++ [.block_on_pad_blocked] ∧
      (unit_in_path s → PadProbe.idle_on_disable ∉ s.in_src_probes →
        ∀ acts : List Action, before_marker s.disable acts = true →
          wiring (run s.disable acts) = wiring s) ∧
      (unit_in_path s → s.link_in_out = false → s.in_src_probes = [] →
        s.out_src_probes = [] → s.bin_events = [] →
        (fire 0 s.disable).out_src_probes = [.event_probe_cb] ∧
        (fire 0 s.disable).bin_events = [remove_plugin_event] ∧
        wiring (fire 0 s.disable) = wiring s ∧
        wiring (deliver (fire 0 s.disable)) = (true, false, false, false) ∧
        (deliver (fire 0 s.disable)).out_src_probes = [])) := by
  refine ⟨fun hp => ?_, fun hp => ?_⟩
  · refine ⟨by rw [disable_not_playing s hp], ?_, on_disable_sends_nothing s⟩
    rw [disable_not_playing s hp]
    exact fire_idle_disable_last s
  · refine ⟨by rw [disable_playing s hp], ?_, ?_⟩
    · intro hu hn acts hb
      have hd : Draining s.disable := by
        rw [disable_playing s hp]
        exact ⟨hu, hp, by simpa using hn⟩
      have hw : wiring s.disable = wiring s := by rw [disable_playing s hp]; rfl
      rw [run_draining acts s.disable hd hb, hw]
    · intro hu hl h1 h2 h3
      rw [disable_playing s hp]
      rcases s with ⟨i, st, c, a, lio, lib, lbo, ps, bs, inp, outp, ev⟩
      obtain ⟨u1, u2, u3⟩ := hu
      simp only at hp hl h1 h2 h3 u1 u2 u3
      subst hp hl h1 h2 h3 u1 u2 u3
      simp [wiring, fire, on_pad_blocked, gst_pad_send_event, remove_plugin_event,
        deliver, event_at_out_src, run_event_probes, event_probe_cb, on_disable,
        gst_bin_get_by_name, gst_element_set_state, gst_element_unlink,
        gst_element_unlink_many, gst_bin_remove, gst_element_link, in_src_free, out_sink_free]

/-- Witness of C6: the idle branch at a detached unit in a playing shell, and the block branch
at a unit playing in the path, first along a run with an ordinary stream event and the block
probe firing, then with the marker leaving the unit. -/
theorem C6_disable_branch_by_unit_state_witness :
    (playing_bypass.disable.in_src_probes
        = playing_bypass.in_src_probes ++ [.idle_on_disable] ∧
      fire playing_bypass.in_src_probes.length playing_bypass.disable
        = on_disable playing_bypass) ∧
    playing_unit.disable.in_src_probes
      = playing_unit.in_src_probes ++ [.block_on_pad_blocked] ∧
    wiring (run playing_unit.disable
        [.stream_event ⟨.SEGMENT, "segment"⟩, .fire 0, .stream_event ⟨.TAG, "taglist"⟩,
          .call_enable, .fire 0])
      = wiring playing_unit ∧
    wiring (deliver (fire 0 playing_unit.disable)) = (true, false, false, false) :=
  ⟨⟨((C6_disable_branch_by_unit_state playing_bypass).1 (by decide)).1,
      ((C6_disable_branch_by_unit_state playing_bypass).1 (by decide)).2.1⟩,
    ((C6_disable_branch_by_unit_state playing_unit).2 (by decide)).1,
    ((C6_disable_branch_by_unit_state playing_unit).2 (by decide)).2.1 (by decide) (by decide)
      _ (by decide),
    (((C6_disable_branch_by_unit_state playing_unit).2 (by decide)).2.2
      (by decide) (by decide) (by decide) (by decide) (by decide)).2.2.2.1⟩

/-- C7 as stated fails: with `plugin_is_installed` false when the constructor body runs and
the stored flag true, no transition has been requested when the constructor returns, and
after settlement the unit is not attached. -/
theorem C7_counterexample :
    g_settings_get_boolean (PluginBase.new false ⟨false, true⟩).settings .state = true ∧
    (PluginBase.new false ⟨false, true⟩).in_src_probes = [] ∧
    (settle (PluginBase.new false ⟨false, true⟩)).bin_in_plugin = false ∧
    (settle (PluginBase.new false ⟨false, true⟩)).link_in_out = true := by
  decide

/-- C7, amended: when the constructor returns, the two endpoints are linked directly and the
unit is created but not attached.  If `plugin_is_installed` is true while the constructor body
runs, a stored flag true has requested `enable()` (after settlement the unit is in the path)
and a stored flag false has requested `disable()` (after settlement the bypass stays).  If it is
false, no transition is requested whatever the stored flag, `"installed"` is written false and
the shell stays in bypass. -/
theorem C7_constructor_applies_flag_when_installed (plugin_is_installed : Bool)
    (store : GSettings) :
    wiring (PluginBase.new plugin_is_installed store) = (true, false, false, false) ∧
    (PluginBase.new plugin_is_installed store).out_src_probes = [] ∧
    (PluginBase.new plugin_is_installed store).bin_events = [] ∧
    (PluginBase.new plugin_is_installed store).in_src_probes
      = (if plugin_is_installed then
          (if g_settings_get_boolean store .state then [PadProbe.idle_on_enable]
           else [PadProbe.idle_on_disable])
         else []) ∧
    (PluginBase.new plugin_is_installed store).settings
      = (if plugin_is_installed then store else g_settings_set_boolean store .installed false) ∧
    wiring (settle (PluginBase.new plugin_is_installed store))
      = (if plugin_is_installed && g_settings_get_boolean store .state
         then (false, true, true, true) else (true, false, false, false)) := by
  cases plugin_is_installed <;> cases hs : store.state <;>
    simp [wiring, PluginBase.new, on_state_changed, gst_element_link,
      in_src_free, out_sink_free, g_settings_get_boolean, hs, PluginBase.enable,
      PluginBase.disable, gst_element_get_state, settle, fire_all, fire, deliver_all,
      on_enable, on_disable, gst_bin_get_by_name, gst_bin_add, gst_element_link_many,
      gst_element_sync_state_with_parent, gst_element_set_state, gst_element_unlink]

/-- C8: the destructor must release the unit directly exactly when the unit is detached from
the shell.  The code decides by the stored flag `"state"` instead of the attachment that
`on_enable` and `on_disable` look up, and misses at two inputs.  Constructed with the stored
flag true and the capability reported missing, the unit is detached (the lookup finds
nothing, before and after settlement) and the destructor does not release it.  After a
settled direct call of `enable()` with the stored flag false, the unit is attached (the lookup
finds it) and the destructor releases it all the same.  The settings handle is released in
both. -/
theorem C8_destructor_release_mismatch :
    (gst_bin_get_by_name ((PluginBase.new false ⟨false, true⟩).is_installed none).2 = false ∧
      gst_bin_get_by_name (settle ((PluginBase.new false ⟨false, true⟩).is_installed none).2)
        = false ∧
      ((PluginBase.new false ⟨false, true⟩).is_installed none).2.destroy.bin_unref = false ∧
      ((PluginBase.new false ⟨false, true⟩).is_installed none).2.destroy.settings_unref
        = true) ∧
    (gst_bin_get_by_name (settled_step (PluginBase.new false ⟨false, false⟩) .call_enable)
        = true ∧
      (settled_step (PluginBase.new false ⟨false, false⟩) .call_enable).destroy.bin_unref
        = true ∧
      (settled_step (PluginBase.new false ⟨false, false⟩) .call_enable).destroy.settings_unref
        = true) := by
  decide

/-- C9 as stated fails: a `CUSTOM_DOWNSTREAM` event that is not the `remove_plugin` marker
fires the probe too: the probe is removed, the swap is performed and the event is dropped. -/
theorem C9_counterexample :
    (⟨.CUSTOM_DOWNSTREAM, "application_event"⟩ : GstEvent) ≠ remove_plugin_event ∧
    trapped_unit.out_src_probes = [.event_probe_cb] ∧
    wiring trapped_unit = (false, true, true, true) ∧
    (event_probe_cb ⟨.CUSTOM_DOWNSTREAM, "application_event"⟩ 0 trapped_unit).1 = .DROP ∧
    (event_probe_cb ⟨.CUSTOM_DOWNSTREAM, "application_event"⟩ 0 trapped_unit).2.out_src_probes
      = [] ∧
    wiring (event_probe_cb ⟨.CUSTOM_DOWNSTREAM, "application_event"⟩ 0 trapped_unit).2
      = (true, false, false, false) := by
  decide

/-- C9, amended: `event_probe_cb` fires on every event of type `CUSTOM_DOWNSTREAM`, whatever
the name of its structure; the marker `on_pad_blocked` sends after installing the probe is
such an event.  For an event of any other type it returns `PASS` and changes nothing, and such
an event changes nothing whatever number of probes is installed on the pad.  For an event of
type `CUSTOM_DOWNSTREAM` it removes its probe, runs `on_disable` and returns `DROP`; when the
unit is in the path this restores the bypass. -/
theorem C9_event_probe_fires_on_custom_downstream (e : GstEvent) (i : Nat) (s : PluginBase) :
    ((on_pad_blocked i s).2.out_src_probes = s.out_src_probes ++ [.event_probe_cb] ∧
      (s.bin_state = .PLAYING →
        (on_pad_blocked i s).2.bin_events = s.bin_events ++ [remove_plugin_event]) ∧
      remove_plugin_event = ⟨.CUSTOM_DOWNSTREAM, "remove_plugin"⟩) ∧
    (e.event_type ≠ .CUSTOM_DOWNSTREAM →
      event_probe_cb e i s = (.PASS, s) ∧ event_at_out_src e s = s) ∧
    (e.event_type = .CUSTOM_DOWNSTREAM →
      event_probe_cb e i s
        = (.DROP, on_disable { s with out_src_probes := s.out_src_probes.eraseIdx i }) ∧
      (event_probe_cb e i s).2.out_src_probes = s.out_src_probes.eraseIdx i ∧
      (unit_in_path s → s.link_in_out = false →
        wiring (event_probe_cb e i s).2 = (true, false, false, false))) := by
  refine ⟨⟨?_, fun hp => ?_, rfl⟩, fun h => ?_, fun h => ?_⟩
  · simp only [on_pad_blocked, gst_pad_send_event]
    split <;> rfl
  · simp [on_pad_blocked, gst_pad_send_event, hp]
  · exact ⟨by simp [event_probe_cb, h], run_event_probes_pass e h _ 0 s⟩
  · refine ⟨by simp [event_probe_cb, h], ?_, ?_⟩
    · simp only [event_probe_cb, h, ne_eq, not_true_eq_false, if_false]
      exact (on_disable_sends_nothing _).1
    · intro hu hl
      rcases s with ⟨ii, st, c, a, lio, lib, lbo, ps, bs, inp, outp, ev⟩
      obtain ⟨u1, u2, u3⟩ := hu
      simp only at hl u1 u2 u3
      subst hl u1 u2 u3
      simp [wiring, event_probe_cb, h, on_disable,
        gst_bin_get_by_name, gst_element_set_state, gst_element_unlink,
        gst_element_unlink_many, gst_bin_remove, gst_element_link, in_src_free, out_sink_free]

/-- Witness of C9: a segment event and the marker at the probe of a unit being removed. -/
theorem C9_event_probe_fires_on_custom_downstream_witness :
    (on_pad_blocked 0 playing_unit.disable).2.bin_events
      = playing_unit.disable.bin_events ++ [remove_plugin_event] ∧
    (event_probe_cb ⟨.SEGMENT, "segment"⟩ 0 trapped_unit = (.PASS, trapped_unit) ∧
      event_at_out_src ⟨.SEGMENT, "segment"⟩ trapped_unit = trapped_unit) ∧
    (event_probe_cb remove_plugin_event 0 trapped_unit).2.out_src_probes
      = trapped_unit.out_src_probes.eraseIdx 0 ∧
    wiring (event_probe_cb remove_plugin_event 0 trapped_unit).2 = (true, false, false, false) :=
  ⟨(C9_event_probe_fires_on_custom_downstream remove_plugin_event 0
      playing_unit.disable).1.2.1 (by decide),
    (C9_event_probe_fires_on_custom_downstream ⟨.SEGMENT, "segment"⟩ 0 trapped_unit).2.1
      (by decide),
    ((C9_event_probe_fires_on_custom_downstream remove_plugin_event 0 trapped_unit).2.2
      (by decide)).2.1,
    ((C9_event_probe_fires_on_custom_downstream remove_plugin_event 0 trapped_unit).2.2
      (by decide)).2.2 (by decide) (by decide)⟩

end PulseEffects
